import Mathlib

/-
Shallow embedding of `src/tasks/taskProvider.ts` from the vscode-beeware
extension: the `BulidRunTaskProvider` class with its public `build` / `run`
entry points, the private `buildHandler`, and `checkAndInstallModule`.

Host collaborators (workspace service, module installer, application shell,
configuration service, process factory) are modelled as an oracle
environment `Env` recording the answers they would give during one
invocation; the handler is a pure function from `Env` to a trace
(`HandlerResult`) recording the log entries, output-channel appends,
subprocess invocations and promise outcomes the invocation produces.
-/

namespace BeeWare

/-- Severity of a log entry: `logger.info` vs `logger.error`. -/
inductive LogLevel
  | info
  | error
  deriving DecidableEq

/-- One entry written to the log sink (`ILogger`). -/
structure LogEntry where
  level : LogLevel
  msg : String
  deriving DecidableEq

/-- `vscode.Uri`, reduced to the only field the code reads (`fsPath`). -/
structure Uri where
  fsPath : String
  deriving DecidableEq

/-- A workspace folder as returned by `selectWorkspaceFolder`. -/
structure WorkspaceFolder where
  uri : Uri
  deriving DecidableEq

/-- One item delivered on the subprocess output stream
(`Output<string>`: an `out` string and a `source` tag,
`stdout` or `stderr`). -/
structure OutputItem where
  out : String
  source : String
  deriving DecidableEq

/-- The command/args pair produced by `BeeWareExecutionHelper.buildExecutionArgs`. -/
structure ExecutionInfo where
  command : String
  args : List String
  deriving DecidableEq

/-- A call to `executionService.execObservable(command, args, { cwd, token })`. -/
structure ExecCall where
  command : String
  args : List String
  cwd : String
  deriving DecidableEq

/-- `os.EOL`, modelled as a newline. -/
def EOL : String := "\n"

/-- Modelled from the spec: the constant `ApplicationName` is imported from
`../common/constants`, a file not present in the source tree; its concrete
value is a fixed application-name string and no claim depends on it. -/
def ApplicationName : String := "BeeWare"

/-- Modelled from the spec: `BeeWareExecutionHelper.buildExecutionArgs`
(from `./helper`, not present in the source tree). Per the spec the
invocation shells out as `<interpreter> <toolchain-args...> {build|run}
<target>`, reading an interpreter path and a toolchain path from
configuration: the command is the interpreter path and the args are the
toolchain args derived from the toolchain path. -/
def buildExecutionArgs (pythonPath beewarePath : String) : ExecutionInfo :=
  { command := pythonPath, args := [beewarePath] }

/-- Oracle environment: the answers the host collaborators give during one
invocation of the handler.
* `workspaceFolder`: result of `workspaceService.selectWorkspaceFolder()`.
* `isInstalled`: result of `moduleInstaller.isInstalled('beeware', uri)`.
* `promptResult`: the user's answer to `showInformationMessage`
  (`none` models a dismissed prompt, i.e. `undefined`).
* `installResult`: result of `moduleInstaller.install('beeware', uri)`.
* `pythonPath`, `beewarePath`: the two workspace-scoped configuration
  values returned by `configurationService.getSettings(uri)`.
* `streamLines`: the items the subprocess output stream emits before its
  terminal notification.
* `streamError`: `some e` when the stream terminates with an error
  notification `e`, `none` when it completes normally. -/
structure Env where
  workspaceFolder : Option WorkspaceFolder
  isInstalled : Bool
  promptResult : Option String
  installResult : Bool
  pythonPath : String
  beewarePath : String
  streamLines : List OutputItem
  streamError : Option String
  deriving DecidableEq

/-- Trace of one call to `checkAndInstallModule`. -/
structure InstallTrace where
  ok : Bool
  logs : List LogEntry
  promptShown : Bool
  installCalls : Nat
  deriving DecidableEq

/-- `checkAndInstallModule(moduleName, workspaceFolder)`: logs a checking
message; if the module is not installed, prompts, and returns `false`
unless the answer is exactly `Install`; then calls `install` and returns
`false` if it fails; otherwise logs success and returns `true`. -/
def checkAndInstallModule (moduleName : String) (env : Env) : InstallTrace :=
  let checking : LogEntry :=
    ⟨LogLevel.info, "Checking if module '" ++ moduleName ++ "' is installed."⟩
  if !env.isInstalled && !(env.promptResult == some "Install") then
    { ok := false, logs := [checking], promptShown := !env.isInstalled,
      installCalls := 0 }
  else if !env.installResult then
    { ok := false, logs := [checking], promptShown := !env.isInstalled,
      installCalls := 1 }
  else
    { ok := true
      logs := [checking,
               ⟨LogLevel.info, "Module '" ++ moduleName ++ "' is installed."⟩]
      promptShown := !env.isInstalled
      installCalls := 1 }

/-- JavaScript truthiness of a string: every non-empty string is truthy.
The source tests `buildOrRun ? ... : ...` on a string value. -/
def jsTruthy (s : String) : Bool := !(s == "")

/-- The subscription callback of `output.out.subscribe`: a line whose
`source` tag is `stderr` is logged at error severity, any other line at
informational severity; the message is the line text. -/
def lineEntry (item : OutputItem) : LogEntry :=
  if item.source == "stderr" then ⟨LogLevel.error, item.out⟩
  else ⟨LogLevel.info, item.out⟩

/-- Trace of one call to `buildHandler`.
* `logs`: entries written to the log sink, in order.
* `installCalls`: how many times `moduleInstaller.install` was called.
* `promptShown`: whether the install prompt was shown.
* `execCalls`: calls made to `execObservable`, in order.
* `outputAppends`: strings appended to the output channel, in order.
* `progressTitle`: the title passed to `shell.withProgress`, when reached.
* `progressOutcome`: outcome of the completion promise passed to
  `withProgress`: `none` when no promise was created, `some none` when it
  resolved, `some (some e)` when it rejected with `e`. -/
structure HandlerResult where
  logs : List LogEntry
  installCalls : Nat
  promptShown : Bool
  execCalls : List ExecCall
  outputAppends : List String
  progressTitle : Option String
  progressOutcome : Option (Option String)
  deriving DecidableEq

/-- The expression `buildOrRun ? 'Build' : 'Run'` from the source (used in
the header log line and the failure log line): a JavaScript conditional on
the truthiness of the string `buildOrRun`. -/
def modeWord (buildOrRun : String) : String :=
  if jsTruthy buildOrRun then "Build" else "Run"

/-- The expression `buildOrRun ? 'Building' : 'Running'` from the source
(used in the progress-notification title). -/
def progressWord (buildOrRun : String) : String :=
  if jsTruthy buildOrRun then "Building" else "Running"

/-- The two header entries `logger.info(EOL)` and
`logger.info(...+target+...)` written at the start of `buildHandler`. -/
def headerLogs (buildOrRun target : String) : List LogEntry :=
  [⟨LogLevel.info, EOL⟩,
   ⟨LogLevel.info, modeWord buildOrRun ++ " '" ++ target ++ "'"⟩]

/-- The title passed to `shell.withProgress`. -/
def progressTitleOf (buildOrRun target : String) : String :=
  progressWord buildOrRun ++ " " ++ ApplicationName ++ " on " ++ target

/-- `buildHandler(buildOrRun, target)`: logs a header, selects a workspace
folder (returning early when there is none), checks/installs the `beeware`
module (returning early on failure), reads the two configuration values,
builds the execution info, and runs the subprocess under a progress
notification, forwarding each output line to the logger and the output
channel and resolving or rejecting the progress promise on the stream's
terminal notification. -/
def buildHandler (buildOrRun : String) (target : String) (env : Env) :
    HandlerResult :=
  let header : List LogEntry := headerLogs buildOrRun target
  match env.workspaceFolder with
  | none =>
      { logs := header, installCalls := 0, promptShown := false,
        execCalls := [], outputAppends := [], progressTitle := none,
        progressOutcome := none }
  | some workspaceFolder =>
      let install := checkAndInstallModule "beeware" env
      if !install.ok then
        { logs := header ++ install.logs, installCalls := install.installCalls,
          promptShown := install.promptShown, execCalls := [],
          outputAppends := [], progressTitle := none, progressOutcome := none }
      else
        let executionInfo := buildExecutionArgs env.pythonPath env.beewarePath
        let title := progressTitleOf buildOrRun target
        let cmd := if buildOrRun == "build" then "build" else "run"
        let args := executionInfo.args ++ [cmd, target]
        let execCall : ExecCall :=
          ⟨executionInfo.command, args, workspaceFolder.uri.fsPath⟩
        let lineLogs := env.streamLines.map lineEntry
        let appends := env.streamLines.map OutputItem.out
        match env.streamError with
        | some e =>
            { logs := header ++ install.logs ++ lineLogs
                ++ [⟨LogLevel.error, modeWord buildOrRun ++ " failed"⟩],
              installCalls := install.installCalls,
              promptShown := install.promptShown,
              execCalls := [execCall], outputAppends := appends,
              progressTitle := some title, progressOutcome := some (some e) }
        | none =>
            { logs := header ++ install.logs ++ lineLogs,
              installCalls := install.installCalls,
              promptShown := install.promptShown,
              execCalls := [execCall], outputAppends := appends,
              progressTitle := some title, progressOutcome := some none }

/-- Result seen by the caller of the public `build` / `run` methods:
the handler trace together with the outcome of the promise the public
method returns (`some e` if it rejects with `e`, `none` if it resolves). -/
structure PublicResult where
  handler : HandlerResult
  rejected : Option String
  deriving DecidableEq

/-- `public async build(target)`: calls `this.buildHandler('build', target)`
without `await` or `return`, so the async body completes normally and the
promise the caller receives always resolves. -/
def build (target : String) (env : Env) : PublicResult :=
  { handler := buildHandler "build" target env, rejected := none }

/-- `public async run(target)`: calls `this.buildHandler('run', target)`
without `await` or `return`, so the async body completes normally and the
promise the caller receives always resolves. -/
def run (target : String) (env : Env) : PublicResult :=
  { handler := buildHandler "run" target env, rejected := none }

/-- A sample environment in which every collaborator cooperates and the
subprocess stream emits two lines then completes. -/
def envOk : Env :=
  { workspaceFolder := some ⟨⟨"/ws"⟩⟩, isInstalled := true,
    promptResult := none, installResult := true,
    pythonPath := "python3", beewarePath := "beeware",
    streamLines := [⟨"hello", "stdout"⟩, ⟨"oops", "stderr"⟩],
    streamError := none }

/-- Like `envOk` but the subprocess stream terminates with an error. -/
def envErr : Env := { envOk with streamError := some "boom" }

/-- Like `envOk` but no workspace folder is selected. -/
def envNoWs : Env := { envOk with workspaceFolder := none }

/-- Like `envOk` but the module is not installed and the user answers
`Cancel` at the install prompt. -/
def envDecline : Env :=
  { envOk with isInstalled := false, promptResult := some "Cancel" }

/-- The `execObservable` call the handler makes once the subprocess stage
is reached: command and cwd from the execution info and folder, args are
the toolchain args followed by the subcommand and the target. -/
def execCallOf (buildOrRun target : String) (env : Env)
    (wf : WorkspaceFolder) : ExecCall :=
  ⟨(buildExecutionArgs env.pythonPath env.beewarePath).command,
   (buildExecutionArgs env.pythonPath env.beewarePath).args
     ++ [(if buildOrRun == "build" then "build" else "run"), target],
   wf.uri.fsPath⟩

/- Structural lemmas: the handler's result in each of its four control-flow
outcomes (no folder, install check fails, subprocess completes, subprocess
errors). -/

theorem buildHandler_eq_of_no_folder (buildOrRun target : String) (env : Env)
    (h : env.workspaceFolder = none) :
    buildHandler buildOrRun target env =
      { logs := headerLogs buildOrRun target, installCalls := 0,
        promptShown := false, execCalls := [], outputAppends := [],
        progressTitle := none, progressOutcome := none } := by
  simp only [buildHandler, h]

theorem buildHandler_eq_of_install_fail (buildOrRun target : String)
    (env : Env) (wf : WorkspaceFolder) (hwf : env.workspaceFolder = some wf)
    (hok : (checkAndInstallModule "beeware" env).ok = false) :
    buildHandler buildOrRun target env =
      { logs := headerLogs buildOrRun target
          ++ (checkAndInstallModule "beeware" env).logs,
        installCalls := (checkAndInstallModule "beeware" env).installCalls,
        promptShown := (checkAndInstallModule "beeware" env).promptShown,
        execCalls := [], outputAppends := [], progressTitle := none,
        progressOutcome := none } := by
  simp only [buildHandler, hwf]
  simp [hok]

theorem buildHandler_eq_of_complete (buildOrRun target : String) (env : Env)
    (wf : WorkspaceFolder) (hwf : env.workspaceFolder = some wf)
    (hok : (checkAndInstallModule "beeware" env).ok = true)
    (hs : env.streamError = none) :
    buildHandler buildOrRun target env =
      { logs := headerLogs buildOrRun target
          ++ (checkAndInstallModule "beeware" env).logs
          ++ env.streamLines.map lineEntry,
        installCalls := (checkAndInstallModule "beeware" env).installCalls,
        promptShown := (checkAndInstallModule "beeware" env).promptShown,
        execCalls := [execCallOf buildOrRun target env wf],
        outputAppends := env.streamLines.map OutputItem.out,
        progressTitle := some (progressTitleOf buildOrRun target),
        progressOutcome := some none } := by
  simp only [buildHandler, hwf]
  simp [hok, hs, execCallOf]

theorem buildHandler_eq_of_error (buildOrRun target e : String) (env : Env)
    (wf : WorkspaceFolder) (hwf : env.workspaceFolder = some wf)
    (hok : (checkAndInstallModule "beeware" env).ok = true)
    (hs : env.streamError = some e) :
    buildHandler buildOrRun target env =
      { logs := headerLogs buildOrRun target
          ++ (checkAndInstallModule "beeware" env).logs
          ++ env.streamLines.map lineEntry
          ++ [⟨LogLevel.error, modeWord buildOrRun ++ " failed"⟩],
        installCalls := (checkAndInstallModule "beeware" env).installCalls,
        promptShown := (checkAndInstallModule "beeware" env).promptShown,
        execCalls := [execCallOf buildOrRun target env wf],
        outputAppends := env.streamLines.map OutputItem.out,
        progressTitle := some (progressTitleOf buildOrRun target),
        progressOutcome := some (some e) } := by
  simp only [buildHandler, hwf]
  simp [hok, hs, execCallOf]

theorem checkAndInstallModule_decline (moduleName : String) (env : Env)
    (hinst : env.isInstalled = false)
    (hans : env.promptResult ≠ some "Install") :
    checkAndInstallModule moduleName env =
      { ok := false,
        logs := [⟨LogLevel.info,
          "Checking if module '" ++ moduleName ++ "' is installed."⟩],
        promptShown := true, installCalls := 0 } := by
  have hb : (env.promptResult == some "Install") = false :=
    beq_eq_false_iff_ne.mpr hans
  simp [checkAndInstallModule, hinst, hb]

theorem checkAndInstallModule_proceeds (moduleName : String) (env : Env)
    (hgo : env.isInstalled = true ∨ env.promptResult = some "Install") :
    (checkAndInstallModule moduleName env).installCalls = 1 ∧
    (checkAndInstallModule moduleName env).ok = env.installResult := by
  have hcond : (!env.isInstalled && !(env.promptResult == some "Install"))
      = false := by
    rcases hgo with h | h <;> simp [h]
  cases h2 : env.installResult <;>
    simp [checkAndInstallModule, hcond, h2]

/-- C1: every build or run invocation that reaches the subprocess stage
reads the interpreter and toolchain paths from the configuration for the
selected folder and invokes the subprocess with the computed interpreter
command and arguments equal to the toolchain args followed by the literal
subcommand (`build` for build, `run` for run) followed by the target. -/
theorem exec_invocation_command_and_args (target : String) (env : Env)
    (wf : WorkspaceFolder) (hwf : env.workspaceFolder = some wf)
    (hok : (checkAndInstallModule "beeware" env).ok = true) :
    (build target env).handler.execCalls =
      [⟨(buildExecutionArgs env.pythonPath env.beewarePath).command,
        (buildExecutionArgs env.pythonPath env.beewarePath).args
          ++ ["build", target], wf.uri.fsPath⟩] ∧
    (run target env).handler.execCalls =
      [⟨(buildExecutionArgs env.pythonPath env.beewarePath).command,
        (buildExecutionArgs env.pythonPath env.beewarePath).args
          ++ ["run", target], wf.uri.fsPath⟩] := by
  cases hs : env.streamError with
  | none =>
      constructor <;>
        simp [build, run, buildHandler_eq_of_complete _ _ _ _ hwf hok hs,
          execCallOf]
  | some e =>
      constructor <;>
        simp [build, run, buildHandler_eq_of_error _ _ _ _ _ hwf hok hs,
          execCallOf]

theorem exec_invocation_command_and_args_witness :
    (build "android" envOk).handler.execCalls =
      [⟨(buildExecutionArgs envOk.pythonPath envOk.beewarePath).command,
        (buildExecutionArgs envOk.pythonPath envOk.beewarePath).args
          ++ ["build", "android"],
        (⟨⟨"/ws"⟩⟩ : WorkspaceFolder).uri.fsPath⟩] :=
  (exec_invocation_command_and_args "android" envOk ⟨⟨"/ws"⟩⟩ rfl
    (by decide)).1

/-- C2: when the workspace folder selection yields no folder, the build and
run handlers perform no subprocess invocation, create no progress promise,
and write no error-severity log entry. -/
theorem no_workspace_folder_no_subprocess (target : String) (env : Env)
    (h : env.workspaceFolder = none) :
    (build target env).handler.execCalls = [] ∧
    (run target env).handler.execCalls = [] ∧
    (build target env).handler.progressOutcome = none ∧
    (run target env).handler.progressOutcome = none ∧
    (∀ en ∈ (build target env).handler.logs, en.level = LogLevel.info) ∧
    (∀ en ∈ (run target env).handler.logs, en.level = LogLevel.info) := by
  refine ⟨?_, ?_, ?_, ?_, ?_, ?_⟩ <;>
    simp [build, run, buildHandler_eq_of_no_folder _ _ _ h, headerLogs]

theorem no_workspace_folder_no_subprocess_witness :
    (build "android" envNoWs).handler.execCalls = [] ∧
    (run "android" envNoWs).handler.execCalls = [] :=
  ⟨(no_workspace_folder_no_subprocess "android" envNoWs rfl).1,
   (no_workspace_folder_no_subprocess "android" envNoWs rfl).2.1⟩

/-- C3: when the module installer reports `beeware` not installed and the
user's answer to the install prompt is anything other than `Install`, the
handler returns without invoking any subprocess. -/
theorem declined_install_no_subprocess (target : String) (env : Env)
    (hinst : env.isInstalled = false)
    (hans : env.promptResult ≠ some "Install") :
    (build target env).handler.execCalls = [] ∧
    (run target env).handler.execCalls = [] := by
  cases hwf : env.workspaceFolder with
  | none =>
      constructor <;>
        simp [build, run, buildHandler_eq_of_no_folder _ _ _ hwf]
  | some wf =>
      have hok : (checkAndInstallModule "beeware" env).ok = false := by
        rw [checkAndInstallModule_decline _ _ hinst hans]
      constructor <;>
        simp [build, run, buildHandler_eq_of_install_fail _ _ _ _ hwf hok]

theorem declined_install_no_subprocess_witness :
    (build "android" envDecline).handler.execCalls = [] ∧
    (run "android" envDecline).handler.execCalls = [] :=
  declined_install_no_subprocess "android" envDecline rfl (by decide)

/-- C4: when the output stream completes without an error notification, the
completion promise passed to the progress shell resolves, and the handler's
log is a prefix followed by exactly the emitted output lines in emission
order, each forwarded with its own text. -/
theorem success_resolves_and_forwards_lines (buildOrRun target : String)
    (env : Env) (wf : WorkspaceFolder) (hwf : env.workspaceFolder = some wf)
    (hok : (checkAndInstallModule "beeware" env).ok = true)
    (hs : env.streamError = none) :
    (buildHandler buildOrRun target env).progressOutcome = some none ∧
    (∃ pre, (buildHandler buildOrRun target env).logs =
        pre ++ env.streamLines.map lineEntry) ∧
    ∀ item : OutputItem, (lineEntry item).msg = item.out := by
  rw [buildHandler_eq_of_complete _ _ _ _ hwf hok hs]
  refine ⟨rfl,
    ⟨headerLogs buildOrRun target ++ (checkAndInstallModule "beeware" env).logs,
     by simp⟩, ?_⟩
  intro item
  unfold lineEntry
  split <;> rfl

theorem success_resolves_and_forwards_lines_witness :
    (buildHandler "build" "android" envOk).progressOutcome = some none ∧
    (∃ pre, (buildHandler "build" "android" envOk).logs =
        pre ++ envOk.streamLines.map lineEntry) ∧
    ∀ item : OutputItem, (lineEntry item).msg = item.out :=
  success_resolves_and_forwards_lines "build" "android" envOk ⟨⟨"/ws"⟩⟩ rfl
    (by decide) rfl

/-- C5: when the output stream signals an error, the completion promise
passed to the progress shell rejects with that error and an error-severity
entry is recorded in the log sink. -/
theorem stream_error_rejects_and_logs_error (buildOrRun target e : String)
    (env : Env) (wf : WorkspaceFolder) (hwf : env.workspaceFolder = some wf)
    (hok : (checkAndInstallModule "beeware" env).ok = true)
    (hs : env.streamError = some e) :
    (buildHandler buildOrRun target env).progressOutcome = some (some e) ∧
    ∃ en ∈ (buildHandler buildOrRun target env).logs,
      en.level = LogLevel.error := by
  rw [buildHandler_eq_of_error _ _ _ _ _ hwf hok hs]
  exact ⟨rfl,
    ⟨⟨LogLevel.error, modeWord buildOrRun ++ " failed"⟩, by simp, rfl⟩⟩

theorem stream_error_rejects_and_logs_error_witness :
    (buildHandler "build" "app" envErr).progressOutcome =
      some (some "boom") ∧
    ∃ en ∈ (buildHandler "build" "app" envErr).logs,
      en.level = LogLevel.error :=
  stream_error_rejects_and_logs_error "build" "app" "boom" envErr ⟨⟨"/ws"⟩⟩
    rfl (by decide) rfl

/-- C6: every line received from the subprocess stream is logged, at error
severity when its source tag equals `stderr` and at informational severity
otherwise. -/
theorem stderr_lines_logged_at_error_severity (buildOrRun target : String)
    (env : Env) (wf : WorkspaceFolder) (hwf : env.workspaceFolder = some wf)
    (hok : (checkAndInstallModule "beeware" env).ok = true)
    (item : OutputItem) (hmem : item ∈ env.streamLines) :
    lineEntry item ∈ (buildHandler buildOrRun target env).logs ∧
    (item.source = "stderr" →
      lineEntry item = ⟨LogLevel.error, item.out⟩) ∧
    (item.source ≠ "stderr" →
      lineEntry item = ⟨LogLevel.info, item.out⟩) := by
  refine ⟨?_, ?_, ?_⟩
  · cases hs : env.streamError with
    | none =>
        rw [buildHandler_eq_of_complete _ _ _ _ hwf hok hs]
        simp only [List.mem_append]
        exact Or.inr (List.mem_map_of_mem lineEntry hmem)
    | some e =>
        rw [buildHandler_eq_of_error _ _ _ _ _ hwf hok hs]
        simp only [List.mem_append]
        exact Or.inl (Or.inr (List.mem_map_of_mem lineEntry hmem))
  · intro h
    simp [lineEntry, h]
  · intro h
    have hb : (item.source == "stderr") = false := beq_eq_false_iff_ne.mpr h
    simp [lineEntry, hb]

theorem stderr_lines_logged_at_error_severity_witness :
    lineEntry ⟨"oops", "stderr"⟩ ∈
      (buildHandler "build" "android" envOk).logs ∧
    ((⟨"oops", "stderr"⟩ : OutputItem).source = "stderr" →
      lineEntry ⟨"oops", "stderr"⟩ = ⟨LogLevel.error, "oops"⟩) ∧
    ((⟨"oops", "stderr"⟩ : OutputItem).source ≠ "stderr" →
      lineEntry ⟨"oops", "stderr"⟩ = ⟨LogLevel.info, "oops"⟩) :=
  stderr_lines_logged_at_error_severity "build" "android" envOk ⟨⟨"/ws"⟩⟩
    rfl (by decide) ⟨"oops", "stderr"⟩ (by decide)

/-- C7 counterexample: with a cooperating environment whose stream errors
with `boom`, the progress promise rejects, yet the promise returned by the
public `build` method resolves — the failure is not propagated to the
caller of `build`, because `buildHandler` is called without `await` and
its own promise does not reflect the progress promise. -/
theorem public_promise_not_rejected_on_error :
    (build "android" envErr).handler.progressOutcome = some (some "boom") ∧
    (build "android" envErr).rejected = none :=
  ⟨by decide, rfl⟩

/-- C7 amended: when the subprocess stream errors, the failure is
propagated as a rejection of the completion promise passed to the progress
shell (not of the promise returned by the public `build`/`run` method,
which always resolves), an error entry is logged, and the subprocess is
invoked exactly once — it is not retried. -/
theorem stream_error_rejects_progress_promise_only (target e : String)
    (env : Env) (wf : WorkspaceFolder) (hwf : env.workspaceFolder = some wf)
    (hok : (checkAndInstallModule "beeware" env).ok = true)
    (hs : env.streamError = some e) :
    (build target env).handler.progressOutcome = some (some e) ∧
    (build target env).rejected = none ∧
    (build target env).handler.execCalls.length = 1 ∧
    (run target env).handler.progressOutcome = some (some e) ∧
    (run target env).rejected = none ∧
    (run target env).handler.execCalls.length = 1 := by
  refine ⟨?_, rfl, ?_, ?_, rfl, ?_⟩ <;>
    simp [build, run, buildHandler_eq_of_error _ _ _ _ _ hwf hok hs]

theorem stream_error_rejects_progress_promise_only_witness :
    (build "android" envErr).handler.progressOutcome =
      some (some "boom") ∧
    (build "android" envErr).rejected = none :=
  ⟨(stream_error_rejects_progress_promise_only "android" "boom" envErr
      ⟨⟨"/ws"⟩⟩ rfl (by decide) rfl).1,
   (stream_error_rejects_progress_promise_only "android" "boom" envErr
      ⟨⟨"/ws"⟩⟩ rfl (by decide) rfl).2.1⟩

/-- C8: every line received from the subprocess stream is appended to the
output channel, in order, regardless of its source tag (and, by
`stderr_lines_logged_at_error_severity`, also forwarded to the logger). -/
theorem every_line_appended_to_output_channel (buildOrRun target : String)
    (env : Env) (wf : WorkspaceFolder) (hwf : env.workspaceFolder = some wf)
    (hok : (checkAndInstallModule "beeware" env).ok = true) :
    (buildHandler buildOrRun target env).outputAppends =
      env.streamLines.map OutputItem.out ∧
    (buildHandler buildOrRun target env).logs.length ≥
      env.streamLines.length := by
  cases hs : env.streamError with
  | none =>
      rw [buildHandler_eq_of_complete _ _ _ _ hwf hok hs]
      refine ⟨rfl, ?_⟩
      simp
      omega
  | some e =>
      rw [buildHandler_eq_of_error _ _ _ _ _ hwf hok hs]
      refine ⟨rfl, ?_⟩
      simp
      omega

theorem every_line_appended_to_output_channel_witness :
    (buildHandler "run" "android" envOk).outputAppends =
      envOk.streamLines.map OutputItem.out :=
  (every_line_appended_to_output_channel "run" "android" envOk ⟨⟨"/ws"⟩⟩
    rfl (by decide)).1

/-- C9: for both subcommands — including run-mode invocations — the header
log line, the progress-notification title and the failure log message all
use the build-flavoured wording, because the source tests the mode string
for truthiness (`buildOrRun ? 'Build' : 'Run'`) and both mode strings are
non-empty; the run-flavoured wording is never produced at those sites. -/
theorem run_mode_uses_build_wording (buildOrRun target e : String)
    (env : Env) (wf : WorkspaceFolder)
    (hm : buildOrRun = "build" ∨ buildOrRun = "run")
    (hwf : env.workspaceFolder = some wf)
    (hok : (checkAndInstallModule "beeware" env).ok = true)
    (hs : env.streamError = some e) :
    (buildHandler buildOrRun target env).logs.take 2 =
      [⟨LogLevel.info, EOL⟩,
       ⟨LogLevel.info, "Build '" ++ target ++ "'"⟩] ∧
    (buildHandler buildOrRun target env).progressTitle =
      some ("Building " ++ ApplicationName ++ " on " ++ target) ∧
    (buildHandler buildOrRun target env).logs.getLast? =
      some ⟨LogLevel.error, "Build failed"⟩ := by
  have hword : modeWord buildOrRun = "Build" := by
    rcases hm with h | h <;> subst h <;> rfl
  have hpword : progressWord buildOrRun = "Building" := by
    rcases hm with h | h <;> subst h <;> rfl
  rw [buildHandler_eq_of_error _ _ _ _ _ hwf hok hs]
  refine ⟨?_, ?_, ?_⟩
  · simp [headerLogs, hword]
  · simp [progressTitleOf, hpword]
  · rw [hword]
    exact List.getLast?_concat _

theorem run_mode_uses_build_wording_witness :
    (buildHandler "run" "android" envErr).logs.take 2 =
      [⟨LogLevel.info, EOL⟩,
       ⟨LogLevel.info, "Build '" ++ "android" ++ "'"⟩] ∧
    (buildHandler "run" "android" envErr).progressTitle =
      some ("Building " ++ ApplicationName ++ " on " ++ "android") ∧
    (buildHandler "run" "android" envErr).logs.getLast? =
      some ⟨LogLevel.error, "Build failed"⟩ :=
  run_mode_uses_build_wording "run" "android" "boom" envErr ⟨⟨"/ws"⟩⟩
    (Or.inr rfl) rfl (by decide) rfl

/-- C10 counterexample: an invocation that passes the workspace-folder
check but in which the module is not installed and the user answers
`Cancel` makes zero calls to the installer's `install` operation, not
exactly one. -/
theorem install_skipped_when_user_declines :
    envDecline.workspaceFolder = some ⟨⟨"/ws"⟩⟩ ∧
    (buildHandler "build" "android" envDecline).installCalls = 0 :=
  ⟨rfl, by decide⟩

/-- C10 amended: for every invocation that passes the workspace-folder
check and in which the module is reported installed or the user answers
`Install`, the installer's `install` operation is invoked exactly once —
even when the module is already reported installed, since the installed
check only gates the prompt — and the subprocess stage is reached only if
that install call returns true. -/
theorem install_called_once_when_not_declined (buildOrRun target : String)
    (env : Env) (wf : WorkspaceFolder) (hwf : env.workspaceFolder = some wf)
    (hgo : env.isInstalled = true ∨ env.promptResult = some "Install") :
    (buildHandler buildOrRun target env).installCalls = 1 ∧
    ((buildHandler buildOrRun target env).execCalls ≠ [] →
      env.installResult = true) := by
  obtain ⟨hcalls, hok_eq⟩ := checkAndInstallModule_proceeds "beeware" env hgo
  cases hres : env.installResult with
  | false =>
      have hok : (checkAndInstallModule "beeware" env).ok = false := by
        rw [hok_eq, hres]
      rw [buildHandler_eq_of_install_fail _ _ _ _ hwf hok]
      exact ⟨hcalls, fun h => absurd rfl h⟩
  | true =>
      have hok : (checkAndInstallModule "beeware" env).ok = true := by
        rw [hok_eq, hres]
      cases hs : env.streamError with
      | none =>
          rw [buildHandler_eq_of_complete _ _ _ _ hwf hok hs]
          exact ⟨hcalls, fun _ => rfl⟩
      | some e =>
          rw [buildHandler_eq_of_error _ _ _ _ _ hwf hok hs]
          exact ⟨hcalls, fun _ => rfl⟩

theorem install_called_once_when_not_declined_witness :
    (buildHandler "build" "android" envOk).installCalls = 1 ∧
    ((buildHandler "build" "android" envOk).execCalls ≠ [] →
      envOk.installResult = true) :=
  install_called_once_when_not_declined "build" "android" envOk ⟨⟨"/ws"⟩⟩
    rfl (Or.inl rfl)

end BeeWare
